import Mathlib

/-!
# Verification of the navmcp browser-tool layer

Shallow embedding of `src/server/tools/fetch.py` and
`src/server/tools/search.py`.  External collaborators (the Selenium driver,
the URL security validator, the HTML parser) are represented as oracles:
their answers for the one call under scrutiny are inputs of the embedded
functions, so that theorems quantify over every behaviour those
collaborators can exhibit.  Helpers from `server/utils/parsing.py` and
`server/utils/net.py` are not part of the sources; where a claim needs
them they are modelled from the specification and marked as such.
-/

namespace NavMCP

/-! ## String helpers -/

/-- Python's `needle in haystack` on a list of characters: does `pat`
occur as a contiguous sublist of `s`?  Prefix test used by `strContains`. -/
def charsStartWith : List Char → List Char → Bool
  | [], _ => true
  | _ :: _, [] => false
  | a :: as, b :: bs => a == b && charsStartWith as bs

/-- Occurrence of `pat` at any position of `s` (character lists). -/
def charsContain (pat : List Char) : List Char → Bool
  | [] => pat.isEmpty
  | c :: rest => charsStartWith pat (c :: rest) || charsContain pat rest

/-- Python's `pat in s` for strings. -/
def strContains (s pat : String) : Bool :=
  charsContain pat.data s.data

/-- ASCII lower-casing of one character, as `str.lower` acts on the ASCII
range (the engine identifiers and error keywords of this program are ASCII). -/
def charLower (c : Char) : Char :=
  if 'A' ≤ c && c ≤ 'Z' then Char.ofNat (c.toNat + 32) else c

/-- Python `s.lower()`. -/
def pyLower (s : String) : String :=
  ⟨s.data.map charLower⟩

/-- Python `s.strip()`: remove leading and trailing whitespace. -/
def pyStrip (s : String) : String :=
  ⟨((s.data.dropWhile Char.isWhitespace).reverse.dropWhile Char.isWhitespace).reverse⟩

/-- Python `s.startswith(pre)`. -/
def pyStartsWith (s pre : String) : Bool :=
  charsStartWith pre.data s.data

/-- `fetch.py` line 213: a WebDriver error is worth retrying when its
lowercased message contains one of the network-related keywords
`['net::', 'dns', 'connection', 'timeout']`. -/
def isTransientMsg (msg : String) : Bool :=
  ["net::", "dns", "connection", "timeout"].any (fun k => strContains (pyLower msg) k)

/-- Splitting a character list on whitespace runs (words of the text). -/
def splitWsAux : List Char → List Char → List (List Char)
  | [], acc => if acc.isEmpty then [] else [acc.reverse]
  | c :: rest, acc =>
    if c.isWhitespace then
      if acc.isEmpty then splitWsAux rest [] else acc.reverse :: splitWsAux rest []
    else splitWsAux rest (c :: acc)

/-- Joining words with single spaces. -/
def joinWords : List (List Char) → List Char
  | [] => []
  | [w] => w
  | w :: ws => w ++ ' ' :: joinWords ws

/-- Modelled from the spec: `clean_text_content` lives in
`server/utils/parsing.py`, which is not among the sources; §4.5 of the spec
describes it as "Collapse internal whitespace/newlines in extracted text".
Whitespace runs collapse to single spaces, leading/trailing whitespace is
dropped. -/
def clean_text_content (s : String) : String :=
  ⟨joinWords (splitWsAux s.data [])⟩

/-- Modelled from the spec: `truncate_text` lives in
`server/utils/parsing.py`, not among the sources; §4.5: "Truncate the
snippet to 300 characters, appending a truncation marker when cut". -/
def truncate_text (s : String) (maxLength : Nat) : String :=
  if s.data.length ≤ maxLength then s
  else ⟨s.data.take maxLength⟩ ++ "..."

/-! ## Fetch pipeline (`src/server/tools/fetch.py`)

The Selenium driver is an external collaborator; one navigation attempt's
observable behaviour is a `NavBehavior` value, and an environment assigns a
behaviour to each (1-based) retry attempt.  `validate_url_security` and
`normalize_url` (in `server/utils/net.py`, not among the sources) are
oracles carried by the environment: the claims quantify over their verdicts. -/

/-- Output schema of the `fetch_url` tool (class `FetchUrlOutput`).
The timing metadata (`duration_seconds`, `timestamp`) measures wall-clock
time and is elided. -/
structure FetchUrlOutput where
  final_url : String
  title : String
  html : String
  status : String
  error : Option String
  metadata : List (String × String)
deriving Repr, DecidableEq

/-- What the driver does when one fetch attempt reads the page after
navigation: the readiness signal either reports `complete` at some poll
index or never does within the budget; reading back `title` or
`page_source` can itself fail (`none`), which the code degrades to `""`. -/
structure PageLoad where
  readyAfterPolls : Option Nat
  finalUrl : String
  titleRead : Option String
  sourceRead : Option String
deriving Repr, DecidableEq

/-- Observable behaviour of the driver during one attempt of
`_fetch_page_with_retry`: raise a `TimeoutException`, raise a
`WebDriverException` with the given message, or load a page. -/
inductive NavBehavior where
  | raisesTimeout (msg : String)
  | raisesWebDriver (msg : String)
  | loads (p : PageLoad)
deriving Repr, DecidableEq

/-- `_wait_for_page_load` (fetch.py lines 226-249): poll
`document.readyState` every 0.1 s until it is `"complete"` or `max_wait`
seconds (i.e. `max_wait * 10` polls) elapse.  The returned Boolean records
whether completeness was observed in budget; in BOTH cases the Python
function returns `None` normally — on timeout it only logs a warning, so
the caller cannot distinguish the two outcomes. -/
def wait_for_page_load (readyAfterPolls : Option Nat) (max_wait : Nat := 30) : Bool :=
  match readyAfterPolls with
  | some k => decide (k < max_wait * 10)
  | none => false

/-- The `status="ok"` output `_fetch_page_with_retry` builds after a
successful navigation (fetch.py lines 164-196): final URL after redirects,
cleaned title (an unreadable title degrades to `""`), raw page source (an
unreadable source degrades to `""`), and the basic metadata. -/
def loadedOutput (url : String) (p : PageLoad) : FetchUrlOutput :=
  let final_url := p.finalUrl
  let title := match p.titleRead with
    | some t => clean_text_content t
    | none => ""
  let html := p.sourceRead.getD ""
  { final_url := final_url, title := title, html := html, status := "ok",
    error := none,
    metadata := [("redirected", toString (final_url != url)),
                 ("title_length", toString title.data.length),
                 ("html_length", toString html.data.length)] }

/-- One attempt of `_fetch_page_with_retry` (fetch.py lines 139-223).
`Except.error` models an exception escaping the attempt (the transient
re-`raise` on line 215); `Except.ok` is a normal return. -/
def fetch_attempt (url : String) (b : NavBehavior) : Except String FetchUrlOutput :=
  match b with
  | .raisesTimeout msg =>
      .ok { final_url := url, title := "", html := "", status := "error",
            error := some ("Page load timeout: " ++ msg), metadata := [] }
  | .raisesWebDriver msg =>
      if isTransientMsg msg then .error msg
      else
        .ok { final_url := url, title := "", html := "", status := "error",
              error := some ("Browser error: " ++ msg), metadata := [] }
  | .loads p =>
      let _ready := wait_for_page_load p.readyAfterPolls 30
      .ok (loadedOutput url p)

/-- The tenacity decorator `@retry(stop=stop_after_attempt(3),
wait=wait_exponential(multiplier=1, min=1, max=10), reraise=True)`:
run `op` starting at 1-based attempt `attemptIdx` with `remaining` attempts
left; an attempt that raises is retried until attempts are exhausted and the
last exception is then re-raised (`reraise=True`).  Returns the final result
together with the number of attempts executed. -/
def tenacityRetry {α : Type} (op : Nat → Except String α) :
    Nat → Nat → Except String α × Nat
  | attemptIdx, 0 => (.error "", attemptIdx - 1)
  | attemptIdx, 1 => (op attemptIdx, attemptIdx)
  | attemptIdx, (n + 2) =>
      match op attemptIdx with
      | .ok v => (.ok v, attemptIdx)
      | .error _ => tenacityRetry op (attemptIdx + 1) (n + 1)

/-- The backoff delay `wait_exponential(multiplier=1, min=1, max=10)`
computes before retrying after attempt `attemptNumber`:
`max(min, min(multiplier * 2 ^ attemptNumber, max))`, in seconds. -/
def fetchRetryWait (attemptNumber : Nat) : Nat :=
  max 1 (min (1 * 2 ^ attemptNumber) 10)

/-- `_fetch_page_with_retry` under its decorator: up to 3 attempts. -/
def fetch_page_with_retry (behaviors : Nat → NavBehavior) (url : String) :
    Except String FetchUrlOutput × Nat :=
  tenacityRetry (fun i => fetch_attempt url (behaviors i)) 1 3

/-- A driver interaction, for the trace of session/driver calls a fetch
performs. -/
inductive DriverCall where
  | getDriver
  | navigate (url : String)
  | readBack
deriving Repr, DecidableEq

/-- Driver calls one attempt performs (every attempt obtains the driver and
issues the navigation command; a successful load also reads the page back). -/
def fetch_attempt_calls (url : String) (b : NavBehavior) : List DriverCall :=
  match b with
  | .raisesTimeout _ => [.getDriver, .navigate url]
  | .raisesWebDriver _ => [.getDriver, .navigate url]
  | .loads _ => [.getDriver, .navigate url, .readBack]

/-- Environment of one `fetch_url` call: the verdict of
`validate_url_security(url, allow_private=False)`, availability of the
browser manager, the `normalize_url` oracle, and the driver's behaviour on
each attempt. -/
structure FetchEnv where
  validation : Bool × String
  managerAvailable : Bool
  normalize : String → String
  behaviors : Nat → NavBehavior

/-- `fetch_url` (fetch.py lines 40-117), returning the tool output together
with the trace of driver calls performed.  The outer `try`/`except` of the
Python function converts an exception escaping the retry wrapper into a
`status="error"` output (lines 105-117). -/
def fetch_url (url : String) (env : FetchEnv) : FetchUrlOutput × List DriverCall :=
  let url := pyStrip url
  if env.validation.1 = false then
    ({ final_url := url, title := "", html := "", status := "error",
       error := some ("URL validation failed: " ++ env.validation.2),
       metadata := [] }, [])
  else if env.managerAvailable = false then
    ({ final_url := url, title := "", html := "", status := "error",
       error := some "Browser manager not available", metadata := [] }, [])
  else
    let normalized := env.normalize url
    let trace := fun n =>
      (List.range' 1 n).flatMap (fun i => fetch_attempt_calls normalized (env.behaviors i))
    match fetch_page_with_retry env.behaviors normalized with
    | (.ok out, n) => (out, trace n)
    | (.error e, n) =>
        ({ final_url := url, title := "", html := "", status := "error",
           error := some ("Unexpected error: " ++ e), metadata := [] }, trace n)

/-! ## Search pipeline (`src/server/tools/search.py`)

`parse_html_with_soup` and `extract_element_text` live in
`server/utils/parsing.py` (not among the sources); the parsed page is
therefore represented abstractly: a `SoupPage` records, for each CSS
selector, the list of result elements `soup.select` returns, and a
`ResultElem` records, for each selector, the sub-element `select_one`
finds together with its extracted text and `href` attribute.  Claims
quantify over these oracles. -/

/-- A single search result (class `SearchResult`). -/
structure SearchResult where
  title : String
  url : String
  snippet : String
deriving Repr, DecidableEq

/-- A result element of the parsed page: for each CSS selector,
`select_one` yields at most one sub-element, represented by its extracted
text (`extract_element_text`) and its `href` attribute (`none` when
absent). -/
structure ResultElem where
  sub : List (String × String × Option String)
deriving Repr, DecidableEq

/-- `element.select_one(sel)` on the abstract element. -/
def selectOne (e : ResultElem) (sel : String) : Option (String × Option String) :=
  (e.sub.find? (fun p => p.1 == sel)).map (fun p => p.2)

/-- The parsed page: for each CSS selector the element list `soup.select`
returns. -/
structure SoupPage where
  selects : List (String × List ResultElem)
deriving Repr, DecidableEq

/-- `soup.select(sel)` on the abstract page (unlisted selectors match
nothing). -/
def SoupPage.select (p : SoupPage) (sel : String) : List ResultElem :=
  ((p.selects.find? (fun q => q.1 == sel)).map (fun q => q.2)).getD []

/-- Static data of one engine's parse/extract routine: container selector
chain, title selector chain, link selector chain (Google Scholar uses only
the first two title selectors, `title_selectors[:2]`; the other engines use
the full title chain), snippet selector chain, and the base URL used for
root-relative links. -/
structure EngineCfg where
  containerSelectors : List String
  titleSelectors : List String
  linkSelectors : List String
  snippetSelectors : List String
  baseUrl : String
deriving Repr, DecidableEq

/-- Container discovery (`_parse_*_results`): try the container selectors
in order; the first one yielding at least one element fixes the result set;
if none matches, the element list is empty. -/
def findContainerElems (selectors : List String) (page : SoupPage) : List ResultElem :=
  match selectors with
  | [] => []
  | s :: rest =>
      let elems := page.select s
      if elems.isEmpty then findContainerElems rest page else elems

/-- The title/snippet loop of `_extract_*_result`: take the FIRST selector
whose `select_one` finds an element (breaking even when that element's text
is empty), and return that element. -/
def firstMatch (e : ResultElem) : List String → Option (String × Option String)
  | [] => none
  | s :: rest =>
      match selectOne e s with
      | some r => some r
      | none => firstMatch e rest

/-- The URL loop of `_extract_*_result`: take the first selector whose
element exists AND carries a truthy (non-empty) `href`; an element without
an `href` does not stop the scan. -/
def firstHref (e : ResultElem) : List String → Option String
  | [] => none
  | s :: rest =>
      match selectOne e s with
      | some (_, some h) => if h = "" then firstHref e rest else some h
      | _ => firstHref e rest

/-- Modelled from the spec: `urllib.parse.urljoin` (standard library,
external) as used here — the code only calls it on root-relative URLs
(starting with `/`); a scheme-relative `//host/...` URL keeps the base's
scheme, any other `/...` URL is appended to the base. -/
def urljoin (base url : String) : String :=
  if pyStartsWith url "//" then
    (if pyStartsWith base "https:" then "https:" else "http:") ++ url
  else base ++ url

/-- `_extract_<engine>_result` (search.py lines 795-1243), parameterized by
the engine's selector data: extract title (first matching selector), fail
with `none` when the title text is empty; extract the first non-empty
`href`, fail with `none` when there is none; resolve the URL against the
base only when it starts with `/`; extract the snippet, clean the texts and
truncate the snippet to 300 characters.  `none` is also how a per-element
extraction exception is observed by the caller, which skips the element. -/
def extractEngineResult (cfg : EngineCfg) (e : ResultElem) : Option SearchResult :=
  let title := ((firstMatch e cfg.titleSelectors).map Prod.fst).getD ""
  if title = "" then none
  else
    match firstHref e cfg.linkSelectors with
    | none => none
    | some href =>
        let url := if pyStartsWith href "/" then urljoin cfg.baseUrl href else href
        let snippet := ((firstMatch e cfg.snippetSelectors).map Prod.fst).getD ""
        some { title := clean_text_content title,
               url := url,
               snippet := truncate_text (clean_text_content snippet) 300 }

/-- `_parse_<engine>_results` (search.py lines 469-790), parameterized by
the engine's selector data: discover the container elements, walk the first
`max_results` of them (`result_elements[:max_results]`) and keep the
successful extractions; a failing element (exception or `None`) is skipped
and the remaining elements are still processed. -/
def parseEngineResults (cfg : EngineCfg) (page : SoupPage) (max_results : Nat) :
    List SearchResult :=
  ((findContainerElems cfg.containerSelectors page).take max_results).filterMap
    (extractEngineResult cfg)

/-- Selector data of `_parse_google_scholar_results` /
`_extract_google_scholar_result`. -/
def googleScholarCfg : EngineCfg :=
  { containerSelectors := [".gs_r.gs_or.gs_scl", ".gs_ri", "[data-lid]"],
    titleSelectors := ["h3.gs_rt a", ".gs_rt a", "h3 a", ".gs_rt"],
    linkSelectors := ["h3.gs_rt a", ".gs_rt a"],
    snippetSelectors := [".gs_rs", ".gs_a + div", ".gs_fl + div"],
    baseUrl := "https://scholar.google.com" }

/-- Selector data of `_parse_pubmed_results` / `_extract_pubmed_result`. -/
def pubmedCfg : EngineCfg :=
  { containerSelectors := ["article.full-docsum", ".docsum-wrap", ".docsum-content"],
    titleSelectors := [".docsum-title a", "h1 a", ".title a"],
    linkSelectors := [".docsum-title a", "h1 a", ".title a"],
    snippetSelectors := [".full-view-snippet", ".docsum-snippet", ".abstract"],
    baseUrl := "https://pubmed.ncbi.nlm.nih.gov" }

/-- Selector data of `_parse_ieee_results` / `_extract_ieee_result`. -/
def ieeeCfg : EngineCfg :=
  { containerSelectors := [".List-results-items", ".result-item", ".document"],
    titleSelectors := [".result-item-title a", "h2 a", ".title a"],
    linkSelectors := [".result-item-title a", "h2 a", ".title a"],
    snippetSelectors := [".description", ".abstract", ".snippet"],
    baseUrl := "https://ieeexplore.ieee.org" }

/-- Selector data of `_parse_arxiv_results` / `_extract_arxiv_result`. -/
def arxivCfg : EngineCfg :=
  { containerSelectors := ["li.arxiv-result", ".list-item", "ol li"],
    titleSelectors := [".list-title a", "p.title a", ".title a"],
    linkSelectors := [".list-title a", "p.title a", ".title a"],
    snippetSelectors := [".list-abstract", "p.abstract", ".abstract"],
    baseUrl := "https://arxiv.org" }

/-- Selector data of `_parse_medrxiv_results` / `_extract_medrxiv_result`. -/
def medrxivCfg : EngineCfg :=
  { containerSelectors := [".highwire-cite", ".search-result", ".result-item"],
    titleSelectors := [".highwire-cite-title a", ".citation-title a", ".title a"],
    linkSelectors := [".highwire-cite-title a", ".citation-title a", ".title a"],
    snippetSelectors := [".highwire-cite-snippet", ".citation-snippet", ".abstract"],
    baseUrl := "https://www.medrxiv.org" }

/-- Selector data of `_parse_biorxiv_results` / `_extract_biorxiv_result`
(same selectors as medRxiv, different base URL). -/
def biorxivCfg : EngineCfg :=
  { containerSelectors := [".highwire-cite", ".search-result", ".result-item"],
    titleSelectors := [".highwire-cite-title a", ".citation-title a", ".title a"],
    linkSelectors := [".highwire-cite-title a", ".citation-title a", ".title a"],
    snippetSelectors := [".highwire-cite-snippet", ".citation-snippet", ".abstract"],
    baseUrl := "https://www.biorxiv.org" }

/-- The six per-engine selector tables, in dispatch order. -/
def engineCfgs : List EngineCfg :=
  [googleScholarCfg, pubmedCfg, ieeeCfg, arxivCfg, medrxivCfg, biorxivCfg]

/-- `_parse_google_scholar_results`. -/
def parse_google_scholar_results (page : SoupPage) (max_results : Nat) : List SearchResult :=
  parseEngineResults googleScholarCfg page max_results

/-- `_parse_pubmed_results`. -/
def parse_pubmed_results (page : SoupPage) (max_results : Nat) : List SearchResult :=
  parseEngineResults pubmedCfg page max_results

/-- `_parse_ieee_results`. -/
def parse_ieee_results (page : SoupPage) (max_results : Nat) : List SearchResult :=
  parseEngineResults ieeeCfg page max_results

/-- `_parse_arxiv_results`. -/
def parse_arxiv_results (page : SoupPage) (max_results : Nat) : List SearchResult :=
  parseEngineResults arxivCfg page max_results

/-- `_parse_medrxiv_results`. -/
def parse_medrxiv_results (page : SoupPage) (max_results : Nat) : List SearchResult :=
  parseEngineResults medrxivCfg page max_results

/-- `_parse_biorxiv_results`. -/
def parse_biorxiv_results (page : SoupPage) (max_results : Nat) : List SearchResult :=
  parseEngineResults biorxivCfg page max_results

/-- Observable behaviour of the driver during one engine search routine:
either some exception is raised while obtaining the driver, navigating,
waiting or reading the page source, or the navigation succeeds and the page
source parses to the given soup. -/
inductive SearchDriverBehavior where
  | raises (msg : String)
  | page (p : SoupPage)
deriving Repr, DecidableEq

/-- Environment of one `web_search` call: availability of the browser
manager, and the driver's behaviour for the (single) engine navigation. -/
structure SearchEnv where
  managerAvailable : Bool
  behavior : SearchDriverBehavior
deriving Repr, DecidableEq

/-- Common body of `_search_google_scholar` … `_search_biorxiv` (search.py
lines 203-464), parameterized by the engine's selector data: obtain the
driver, navigate to the engine's query URL, wait for results, read the page
source and parse it.  ANY exception in that sequence is caught inside the
routine, logged, and the (empty) accumulated result list is returned — there
is no retry wrapper on these routines.  The second component counts the
driver navigations performed (always exactly one). -/
def searchEngineRun (cfg : EngineCfg) (env : SearchEnv) (num_results : Nat) :
    List SearchResult × Nat :=
  match env.behavior with
  | .raises _ => ([], 1)
  | .page p => (parseEngineResults cfg p num_results, 1)

/-- `_search_google_scholar`. -/
def search_google_scholar (env : SearchEnv) (num_results : Nat) : List SearchResult × Nat :=
  searchEngineRun googleScholarCfg env num_results

/-- `_search_pubmed`. -/
def search_pubmed (env : SearchEnv) (num_results : Nat) : List SearchResult × Nat :=
  searchEngineRun pubmedCfg env num_results

/-- `_search_ieee`. -/
def search_ieee (env : SearchEnv) (num_results : Nat) : List SearchResult × Nat :=
  searchEngineRun ieeeCfg env num_results

/-- `_search_arxiv`. -/
def search_arxiv (env : SearchEnv) (num_results : Nat) : List SearchResult × Nat :=
  searchEngineRun arxivCfg env num_results

/-- `_search_medrxiv`. -/
def search_medrxiv (env : SearchEnv) (num_results : Nat) : List SearchResult × Nat :=
  searchEngineRun medrxivCfg env num_results

/-- `_search_biorxiv`. -/
def search_biorxiv (env : SearchEnv) (num_results : Nat) : List SearchResult × Nat :=
  searchEngineRun biorxivCfg env num_results

/-- Input schema of the `web_search` tool (class `WebSearchInput`).  The
declared schema constrains `query` to 1-512 characters, `engine` to the
regular expression `^(google_scholar|pubmed|ieee|arxiv|medrxiv|biorxiv)$`
and `num_results` to 1-20; the function below is the raw operation on
arbitrary field values. -/
structure WebSearchInput where
  query : String
  engine : String
  num_results : Nat
deriving Repr, DecidableEq

/-- Output schema of the `web_search` tool (class `WebSearchOutput`);
timing metadata is elided as in `FetchUrlOutput`. -/
structure WebSearchOutput where
  results : List SearchResult
  query : String
  engine : String
  status : String
  error : Option String
  metadata : List (String × String)
deriving Repr, DecidableEq

/-- The engine identifiers the dispatch of `web_search` recognizes
(search.py lines 145-156), which are also the alternatives of the declared
input-schema pattern (line 40). -/
def knownEngines : List String :=
  ["google_scholar", "pubmed", "ieee", "arxiv", "medrxiv", "biorxiv"]

/-- `web_search` (search.py lines 72-198), returning the tool output
together with the number of driver navigations performed.  The query is
stripped, the engine lowercased, `num_results` capped at 20; an empty query
or an unavailable browser manager short-circuits with `status="error"`, the
engine chain dispatches to one of the six routines, and an unrecognized
engine falls into the `Unsupported search engine` error branch.  The outer
`try`/`except` (lines 186-198) is unreachable in this model because the
engine routines catch their own exceptions. -/
def web_search (input : WebSearchInput) (env : SearchEnv) : WebSearchOutput × Nat :=
  let query := pyStrip input.query
  let engine := pyLower input.engine
  let num_results := min input.num_results 20
  if query = "" then
    ({ results := [], query := query, engine := engine, status := "error",
       error := some "Search query cannot be empty", metadata := [] }, 0)
  else if env.managerAvailable = false then
    ({ results := [], query := query, engine := engine, status := "error",
       error := some "Browser manager not available", metadata := [] }, 0)
  else
    let done := fun (rn : List SearchResult × Nat) =>
      ({ results := rn.1, query := query, engine := engine, status := "ok",
         error := none,
         metadata := [("results_requested", toString num_results),
                      ("results_found", toString rn.1.length)] }, rn.2)
    if engine = "google_scholar" then done (search_google_scholar env num_results)
    else if engine = "pubmed" then done (search_pubmed env num_results)
    else if engine = "ieee" then done (search_ieee env num_results)
    else if engine = "arxiv" then done (search_arxiv env num_results)
    else if engine = "medrxiv" then done (search_medrxiv env num_results)
    else if engine = "biorxiv" then done (search_biorxiv env num_results)
    else
      ({ results := [], query := query, engine := engine, status := "error",
         error := some ("Unsupported search engine: " ++ engine), metadata := [] }, 0)

/-! ## Concrete environments and pages used by witnesses and counterexamples -/

/-- A fetch environment whose URL validator rejects the URL (a private
address), used to witness the validation short-circuit. -/
def c1Env : FetchEnv :=
  { validation := (false, "Private addresses are not allowed"),
    managerAvailable := true, normalize := fun u => u,
    behaviors := fun _ => .loads ⟨some 0, "https://x/", none, some "<html></html>"⟩ }

/-- A page whose document-ready signal never reports complete within the
budget, with partial markup available. -/
def c2Page : PageLoad :=
  { readyAfterPolls := none, finalUrl := "https://fixture.test/page",
    titleRead := none, sourceRead := some "<html><body>partial</body></html>" }

/-- Fetch environment for the never-ready fixture. -/
def c2Env : FetchEnv :=
  { validation := (true, ""), managerAvailable := true, normalize := fun u => u,
    behaviors := fun _ => .loads c2Page }

/-- A Google Scholar result element whose link is relative without a
leading slash. -/
def c3Elem1 : ResultElem := ⟨[("h3.gs_rt a", "T", some "paper.html")]⟩

/-- A Google Scholar result element with no title sub-element, so its
extraction fails. -/
def c3Elem2 : ResultElem := ⟨[(".gs_rs", "orphan snippet", none)]⟩

/-- A result page holding the two elements above under the primary
container selector: K = 2 result elements. -/
def c3Page : SoupPage := ⟨[(".gs_r.gs_or.gs_scl", [c3Elem1, c3Elem2])]⟩

/-- A well-formed Google Scholar result element with a root-relative link. -/
def c3wElem : ResultElem :=
  ⟨[("h3.gs_rt a", "Attention is all you need", some "/citations?user=x"),
    (".gs_rs", "We propose a new  architecture", none)]⟩

/-- A result page holding one well-formed element. -/
def c3wPage : SoupPage := ⟨[(".gs_r.gs_or.gs_scl", [c3wElem])]⟩

/-- A search environment whose driver raises a transient (network-class)
error during the engine navigation. -/
def c4Env : SearchEnv := ⟨true, .raises "net::ERR_CONNECTION_RESET"⟩

/-- A search environment whose driver serves a page with no recognizable
result container. -/
def c7Env : SearchEnv := ⟨true, .page ⟨[]⟩⟩

/-- Always-transient-failing driver behaviour for the retry claims. -/
def c5Behaviors : Nat → NavBehavior :=
  fun _ => .raisesWebDriver "net::ERR_NAME_NOT_RESOLVED"

/-- A driver behaviour failing fatally (no network keyword) on the first
attempt. -/
def c6Behaviors : Nat → NavBehavior :=
  fun _ => .raisesWebDriver "invalid session id"

/-- Elements for the extraction-failure claim: two good ones around one
whose extraction fails. -/
def c9Elem1 : ResultElem := ⟨[("h3.gs_rt a", "First", some "/scholar?cluster=1")]⟩

/-- Element whose title chain matches nothing — extraction fails. -/
def c9ElemBad : ResultElem := ⟨[(".gs_a + div", "stray", none)]⟩

/-- Second well-formed element. -/
def c9Elem3 : ResultElem := ⟨[("h3.gs_rt a", "Third", some "https://doi.org/3")]⟩

/-- Page with a failing element between two good ones. -/
def c9Page : SoupPage := ⟨[(".gs_r.gs_or.gs_scl", [c9Elem1, c9ElemBad, c9Elem3])]⟩

/-- Search environment serving the medRxiv engine a concrete page. -/
def c10Env : SearchEnv :=
  ⟨true, .page ⟨[(".highwire-cite",
      [⟨[(".highwire-cite-title a", "A preprint", some "/content/1")]⟩])]⟩⟩

/-! ## Helper lemmas -/

/-- Whatever value the retry executor succeeds with was produced by the
attempt it reports as its last. -/
theorem tenacityRetry_ok_inv {α : Type} (op : Nat → Except String α) :
    ∀ (r a : Nat) (v : α) (n : Nat), tenacityRetry op a r = (.ok v, n) → op n = .ok v := by
  intro r
  induction r with
  | zero =>
      intro a v n h
      simp [tenacityRetry] at h
  | succ m ih =>
      intro a v n h
      cases m with
      | zero =>
          simp [tenacityRetry] at h
          obtain ⟨h1, h2⟩ := h
          rw [← h2, h1]
      | succ k =>
          rw [tenacityRetry] at h
          rcases ho : op a with e | w
          · rw [ho] at h
            exact ih (a + 1) v n h
          · rw [ho] at h
            obtain ⟨h1, h2⟩ := Prod.mk.injEq .. ▸ h
            injection h1 with h1
            rw [← h2, ho, h1]

/-- Every normal return of a fetch attempt carries status `"ok"` or
`"error"`. -/
theorem fetch_attempt_status (url : String) (b : NavBehavior) (out : FetchUrlOutput)
    (h : fetch_attempt url b = .ok out) : out.status = "ok" ∨ out.status = "error" := by
  cases b with
  | raisesTimeout msg =>
      right
      simp [fetch_attempt] at h
      rw [← h]
  | raisesWebDriver msg =>
      by_cases ht : isTransientMsg msg
      · simp [fetch_attempt, ht] at h
      · right
        simp [fetch_attempt, ht] at h
        rw [← h]
  | loads p =>
      left
      simp [fetch_attempt] at h
      rw [← h, loadedOutput]

/-- `filterMap` keeps the length when the function succeeds on every
element. -/
theorem length_filterMap_of_isSome {α β : Type} (f : α → Option β) :
    ∀ (l : List α), (∀ e ∈ l, (f e).isSome) → (l.filterMap f).length = l.length := by
  intro l
  induction l with
  | nil => intro _; rfl
  | cons a as ih =>
      intro h
      have ha := h a (by simp)
      rcases hfa : f a with _ | b
      · rw [hfa] at ha; simp at ha
      · rw [List.filterMap_cons, hfa]
        simp only [List.length_cons]
        rw [ih fun e he => h e (List.mem_cons_of_mem a he)]

/-- The URL loop only ever returns a non-empty `href`. -/
theorem firstHref_ne_empty (e : ResultElem) :
    ∀ (sels : List String) (h : String), firstHref e sels = some h → h ≠ "" := by
  intro sels
  induction sels with
  | nil => intro h hh; simp [firstHref] at hh
  | cons s rest ih =>
      intro h hh
      rw [firstHref] at hh
      rcases hs : selectOne e s with _ | p
      · rw [hs] at hh; exact ih h hh
      · rcases p with ⟨t, _ | href⟩
        · rw [hs] at hh; exact ih h hh
        · rw [hs] at hh
          by_cases hempty : href = ""
          · simp only [hempty, if_pos rfl] at hh
            exact ih h hh
          · simp [hempty] at hh
            exact hh ▸ hempty

/-- A string with a non-empty right part is non-empty. -/
theorem append_ne_empty_right (a b : String) (hb : b ≠ "") : a ++ b ≠ "" := by
  intro h
  apply hb
  have hl := congrArg String.length h
  rw [String.length_append] at hl
  have h0 : ("" : String).length = 0 := rfl
  rw [h0] at hl
  have hb0 : b.length = 0 := by omega
  cases b with
  | mk data =>
      cases data with
      | nil => rfl
      | cons c cs => simp [String.length] at hb0

/-- Inversion of a successful extraction: the result's URL is the first
non-empty `href` of the link-selector chain, resolved against the base URL
exactly when it is root-relative, and it is never empty. -/
theorem extractEngineResult_url (cfg : EngineCfg) (e : ResultElem) (r : SearchResult)
    (h : extractEngineResult cfg e = some r) :
    r.url ≠ "" ∧
    ∃ href, firstHref e cfg.linkSelectors = some href ∧ href ≠ "" ∧
      r.url = (if pyStartsWith href "/" then urljoin cfg.baseUrl href else href) := by
  rw [extractEngineResult] at h
  by_cases ht : ((firstMatch e cfg.titleSelectors).map Prod.fst).getD "" = ""
  · rw [if_pos ht] at h; exact absurd h (by simp)
  · rw [if_neg ht] at h
    rcases hh : firstHref e cfg.linkSelectors with _ | href
    · rw [hh] at h; exact absurd h (by simp)
    · rw [hh] at h
      injection h with h
      have hne := firstHref_ne_empty e cfg.linkSelectors href hh
      have hurl : r.url = (if pyStartsWith href "/" then urljoin cfg.baseUrl href else href) := by
        rw [← h]
      refine ⟨?_, href, rfl, hne, hurl⟩
      rw [hurl]
      by_cases hs : pyStartsWith href "/"
      · rw [if_pos hs, urljoin]
        by_cases hss : pyStartsWith href "//"
        · rw [if_pos hss]
          by_cases hb : pyStartsWith cfg.baseUrl "https:"
          · rw [if_pos hb]; exact append_ne_empty_right _ _ hne
          · rw [if_neg hb]; exact append_ne_empty_right _ _ hne
        · rw [if_neg hss]; exact append_ne_empty_right _ _ hne
      · rw [if_neg hs]; exact hne

/-! ## Claims -/

/-- C1: for every URL rejected by the security validator, `fetch_url`
returns `status="error"` immediately, with the validation message, and
performs no session/driver interaction (the driver-call trace is empty). -/
theorem claim_C1 (url : String) (env : FetchEnv) (msg : String)
    (h : env.validation = (false, msg)) :
    (fetch_url url env).1.status = "error" ∧
    (fetch_url url env).1.error = some ("URL validation failed: " ++ msg) ∧
    (fetch_url url env).2 = [] := by
  rw [fetch_url, h]
  exact ⟨rfl, rfl, rfl⟩

/-- Witness for C1 at a concrete rejected URL and environment. -/
theorem claim_C1_witness :
    (fetch_url "http://127.0.0.1/admin" c1Env).1.status = "error" ∧
    (fetch_url "http://127.0.0.1/admin" c1Env).1.error
      = some ("URL validation failed: " ++ "Private addresses are not allowed") ∧
    (fetch_url "http://127.0.0.1/admin" c1Env).2 = [] :=
  claim_C1 "http://127.0.0.1/admin" c1Env "Private addresses are not allowed" rfl

/-- Counterexample to C2 as stated: against a fixture whose document-ready
signal never reports complete within the 30-second budget, `fetch_url`
returns `status="ok"` with no error message at all — not `status="error"`
mentioning a timeout.  (`_wait_for_page_load` only logs the timeout and
returns normally, and `_fetch_page_with_retry` ignores it.) -/
theorem claim_C2_counterexample :
    c2Page.readyAfterPolls = none ∧
    wait_for_page_load c2Page.readyAfterPolls 30 = false ∧
    (fetch_url "https://fixture.test/page" c2Env).1.status = "ok" ∧
    (fetch_url "https://fixture.test/page" c2Env).1.error = none := by
  exact ⟨rfl, rfl, rfl, rfl⟩

/-- C2 (amended): when the document-ready signal never reports complete
within the 30-second readiness budget, the readiness wait observes the
timeout but the fetch is NOT failed: it proceeds to read the page back and
returns `status="ok"` with whatever markup is available, surfacing no
error. -/
theorem claim_C2_amended (url : String) (env : FetchEnv) (p : PageLoad)
    (hv : env.validation.1 = true) (hm : env.managerAvailable = true)
    (hb : env.behaviors 1 = .loads p) (hr : p.readyAfterPolls = none) :
    wait_for_page_load p.readyAfterPolls 30 = false ∧
    (fetch_url url env).1.status = "ok" ∧
    (fetch_url url env).1.html = p.sourceRead.getD "" ∧
    (fetch_url url env).1.error = none := by
  have hfpr : fetch_page_with_retry env.behaviors (env.normalize (pyStrip url))
      = (.ok (loadedOutput (env.normalize (pyStrip url)) p), 1) := by
    rw [fetch_page_with_retry, tenacityRetry, hb]
    rfl
  rw [hr]
  refine ⟨rfl, ?_⟩
  rw [fetch_url]
  rw [hv, hm]
  simp only [Bool.true_eq_false, if_false, hfpr]
  exact ⟨rfl, rfl, rfl⟩

/-- Witness for the amended C2 at the concrete never-ready fixture. -/
theorem claim_C2_amended_witness :
    wait_for_page_load c2Page.readyAfterPolls 30 = false ∧
    (fetch_url "https://fixture.test/page" c2Env).1.status = "ok" ∧
    (fetch_url "https://fixture.test/page" c2Env).1.html
      = c2Page.sourceRead.getD "" ∧
    (fetch_url "https://fixture.test/page" c2Env).1.error = none :=
  claim_C2_amended "https://fixture.test/page" c2Env c2Page rfl rfl rfl rfl

/-- C5: when every attempt fails with a transient-classified failure, the
retry executor runs exactly 3 attempts and re-raises the final failure;
its backoff schedule (`wait_exponential(multiplier=1, min=1, max=10)`) is
exponential with delays clamped to [1 s, 10 s], concretely 2 s then 4 s
between the three attempts. -/
theorem claim_C5 (url : String) (behaviors : Nat → NavBehavior) (m₁ m₂ m₃ : String)
    (h1 : behaviors 1 = .raisesWebDriver m₁) (h2 : behaviors 2 = .raisesWebDriver m₂)
    (h3 : behaviors 3 = .raisesWebDriver m₃)
    (t1 : isTransientMsg m₁ = true) (t2 : isTransientMsg m₂ = true)
    (t3 : isTransientMsg m₃ = true) :
    fetch_page_with_retry behaviors url = (.error m₃, 3) ∧
    (∀ k, 1 ≤ fetchRetryWait k ∧ fetchRetryWait k ≤ 10) ∧
    fetchRetryWait 1 = 2 ∧ fetchRetryWait 2 = 4 := by
  refine ⟨?_, ?_, rfl, rfl⟩
  · rw [fetch_page_with_retry, tenacityRetry, h1]
    simp only [fetch_attempt, t1, if_true]
    rw [tenacityRetry, h2]
    simp only [fetch_attempt, t2, if_true]
    rw [tenacityRetry, h3]
    simp only [fetch_attempt, t3, if_true]
  · intro k
    refine ⟨Nat.le_max_left 1 _, Nat.max_le.mpr ⟨by omega, Nat.min_le_right _ 10⟩⟩

/-- Witness for C5: a driver failing every attempt with a DNS-class error. -/
theorem claim_C5_witness :
    fetch_page_with_retry c5Behaviors "https://example.org"
      = (.error "net::ERR_NAME_NOT_RESOLVED", 3) ∧
    fetchRetryWait 1 = 2 ∧ fetchRetryWait 2 = 4 :=
  have h := claim_C5 "https://example.org" c5Behaviors
    "net::ERR_NAME_NOT_RESOLVED" "net::ERR_NAME_NOT_RESOLVED" "net::ERR_NAME_NOT_RESOLVED"
    rfl rfl rfl (by decide) (by decide) (by decide)
  ⟨h.1, h.2.2.1, h.2.2.2⟩

/-- C6: a first attempt failing with a fatal-classified failure (a
WebDriver error whose message carries no network/timeout keyword) executes
exactly 1 attempt: the retry executor returns immediately with the
`status="error"` output, retrying nothing. -/
theorem claim_C6 (url : String) (behaviors : Nat → NavBehavior) (m : String)
    (h1 : behaviors 1 = .raisesWebDriver m) (hf : isTransientMsg m = false) :
    fetch_page_with_retry behaviors url
      = (.ok { final_url := url, title := "", html := "", status := "error",
               error := some ("Browser error: " ++ m), metadata := [] }, 1) := by
  rw [fetch_page_with_retry, tenacityRetry, h1]
  simp only [fetch_attempt, hf, Bool.false_eq_true, if_false]

/-- Witness for C6: a driver failing fatally on the first attempt. -/
theorem claim_C6_witness :
    fetch_page_with_retry c6Behaviors "https://example.org"
      = (.ok { final_url := "https://example.org", title := "", html := "",
               status := "error",
               error := some ("Browser error: " ++ "invalid session id"),
               metadata := [] }, 1) :=
  claim_C6 "https://example.org" c6Behaviors "invalid session id" rfl (by decide)

/-- C8: for every input and every driver/validator/manager behaviour, both
tool operations return a well-formed output whose `status` is `"ok"` or
`"error"`; no exception propagates past the tool boundary (both embeddings
are total functions, the boundary `try`/`except` turning an escaping retry
failure into a `status="error"` output). -/
theorem claim_C8 :
    (∀ (url : String) (env : FetchEnv),
        (fetch_url url env).1.status = "ok" ∨ (fetch_url url env).1.status = "error") ∧
    (∀ (input : WebSearchInput) (env : SearchEnv),
        (web_search input env).1.status = "ok" ∨ (web_search input env).1.status = "error") := by
  constructor
  · intro url env
    rw [fetch_url]
    by_cases hv : env.validation.1 = false
    · simp [hv]
    · simp only [hv, if_false]
      by_cases hm : env.managerAvailable = false
      · simp [hm]
      · simp only [hm, if_false]
        rcases hfpr : fetch_page_with_retry env.behaviors (env.normalize (pyStrip url))
          with ⟨r, n⟩
        cases r with
        | error e => simp [hfpr]
        | ok out =>
            rw [fetch_page_with_retry] at hfpr
            have hop := tenacityRetry_ok_inv
              (fun i => fetch_attempt (env.normalize (pyStrip url)) (env.behaviors i))
              3 1 out n hfpr
            have := fetch_attempt_status (env.normalize (pyStrip url))
              (env.behaviors n) out hop
            simpa [fetch_page_with_retry, hfpr] using this
  · intro input env
    rw [web_search]
    by_cases hq : pyStrip input.query = ""
    · simp [hq]
    · simp only [hq, if_false]
      by_cases hm : env.managerAvailable = false
      · simp [hm]
      · simp only [hm, if_false]
        repeat' split
        all_goals simp

/-- Counterexample to C3 as stated: a Google Scholar fixture with K = 2
result elements, requesting n = 2 results, yields only 1 result — not
min(2, 2) = 2, because the second element fails extraction — and that one
result's URL is the raw relative `href` `"paper.html"`, which is neither
absolute nor resolved against the engine's base URL (only `href`s starting
with `/` are resolved). -/
theorem claim_C3_counterexample :
    findContainerElems googleScholarCfg.containerSelectors c3Page = [c3Elem1, c3Elem2] ∧
    parse_google_scholar_results c3Page 2
      = [{ title := "T", url := "paper.html", snippet := "" }] ∧
    (parse_google_scholar_results c3Page 2).length ≠ min 2 2 ∧
    pyStartsWith "paper.html" "http" = false ∧
    pyStartsWith "paper.html" googleScholarCfg.baseUrl = false := by
  exact ⟨rfl, rfl, by decide, rfl, rfl⟩

/-- C3 (amended): for every known engine and every result page, requesting
`num_results = n` returns the successful extractions among the first
min(n, K) result elements — at most min(n, K) results, and exactly
min(n, K) when each of those elements extracts successfully; every
returned result has a non-empty URL, namely the first non-empty `href` of
the link-selector chain, resolved against the engine's declared base URL
exactly when it starts with `/` (other relative forms are returned
unchanged). -/
theorem claim_C3_amended (cfg : EngineCfg) (hcfg : cfg ∈ engineCfgs)
    (page : SoupPage) (n : Nat) :
    (parseEngineResults cfg page n).length
        ≤ min n (findContainerElems cfg.containerSelectors page).length ∧
    ((∀ e ∈ (findContainerElems cfg.containerSelectors page).take n,
        (extractEngineResult cfg e).isSome) →
      (parseEngineResults cfg page n).length
        = min n (findContainerElems cfg.containerSelectors page).length) ∧
    (∀ r ∈ parseEngineResults cfg page n,
      r.url ≠ "" ∧
      ∃ e, e ∈ (findContainerElems cfg.containerSelectors page).take n ∧
        extractEngineResult cfg e = some r ∧
        ∃ href, firstHref e cfg.linkSelectors = some href ∧ href ≠ "" ∧
          r.url = (if pyStartsWith href "/" then urljoin cfg.baseUrl href else href)) := by
  refine ⟨?_, ?_, ?_⟩
  · rw [parseEngineResults]
    calc (((findContainerElems cfg.containerSelectors page).take n).filterMap
            (extractEngineResult cfg)).length
        ≤ ((findContainerElems cfg.containerSelectors page).take n).length :=
          List.length_filterMap_le _ _
      _ = min n (findContainerElems cfg.containerSelectors page).length :=
          List.length_take n _
  · intro hall
    rw [parseEngineResults, length_filterMap_of_isSome _ _ hall, List.length_take]
  · intro r hr
    rw [parseEngineResults] at hr
    rcases List.mem_filterMap.mp hr with ⟨e, he, hex⟩
    obtain ⟨hne, href, hh, hhe, hurl⟩ := extractEngineResult_url cfg e r hex
    exact ⟨hne, e, he, hex, href, hh, hhe, hurl⟩

/-- Witness for the amended C3: the length bound evaluated on a concrete
Google Scholar fixture with one well-formed element. -/
theorem claim_C3_amended_witness :
    (parseEngineResults googleScholarCfg c3wPage 1).length
      ≤ min 1 (findContainerElems googleScholarCfg.containerSelectors c3wPage).length :=
  (claim_C3_amended googleScholarCfg (by decide) c3wPage 1).1

/-- Counterexample to C4 as stated: a driver failing the Google Scholar
navigation with a transient network-class error is NOT retried (a single
driver navigation happens) and the failure is not surfaced: `web_search`
returns `status="ok"` with zero results, because the engine routine
swallows every exception and returns an empty list. -/
theorem claim_C4_counterexample :
    isTransientMsg "net::ERR_CONNECTION_RESET" = true ∧
    (web_search ⟨"quantum computing", "google_scholar", 5⟩ c4Env).1.status = "ok" ∧
    (web_search ⟨"quantum computing", "google_scholar", 5⟩ c4Env).1.results = [] ∧
    (web_search ⟨"quantum computing", "google_scholar", 5⟩ c4Env).2 = 1 := by
  exact ⟨by decide, rfl, rfl, rfl⟩

/-- C4 (amended): a navigation/driver failure inside an engine search
routine — transient or not — is caught within the routine and never
retried: exactly one driver navigation occurs, the routine returns an
empty result list, and `web_search` reports `status="ok"` with zero
results instead of surfacing `status="error"`. -/
theorem claim_C4_amended (input : WebSearchInput) (env : SearchEnv) (msg : String)
    (hq : pyStrip input.query ≠ "") (hm : env.managerAvailable = true)
    (hb : env.behavior = .raises msg) (he : pyLower input.engine ∈ knownEngines) :
    (web_search input env).1.status = "ok" ∧
    (web_search input env).1.results = [] ∧
    (web_search input env).2 = 1 := by
  simp only [knownEngines, List.mem_cons, List.not_mem_nil, or_false] at he
  rcases he with h | h | h | h | h | h <;>
    rw [web_search] <;>
    simp [h, hq, hm, hb, search_google_scholar, search_pubmed, search_ieee,
      search_arxiv, search_medrxiv, search_biorxiv, searchEngineRun]

/-- Witness for the amended C4 at a concrete transient failure. -/
theorem claim_C4_amended_witness :
    (web_search ⟨"crispr", "pubmed", 3⟩ c4Env).1.status = "ok" ∧
    (web_search ⟨"crispr", "pubmed", 3⟩ c4Env).1.results = [] ∧
    (web_search ⟨"crispr", "pubmed", 3⟩ c4Env).2 = 1 :=
  claim_C4_amended ⟨"crispr", "pubmed", 3⟩ c4Env "net::ERR_CONNECTION_RESET"
    (by decide) rfl rfl (by decide)

/-- Counterexample to C7 as stated: `"ARXIV"` is outside the fixed set of
known engine identifiers, yet `web_search` does not return `status="error"`
without driver interaction — the engine value is lowercased before
dispatch, so the arXiv routine runs, performs one driver navigation and
the call returns `status="ok"`. -/
theorem claim_C7_counterexample :
    "ARXIV" ∉ knownEngines ∧
    (web_search ⟨"x", "ARXIV", 5⟩ c7Env).1.status = "ok" ∧
    (web_search ⟨"x", "ARXIV", 5⟩ c7Env).2 = 1 := by
  exact ⟨by decide, rfl, rfl⟩

/-- C7 (amended): for every search input with an empty (or
whitespace-only) query, or whose engine identifier's LOWERCASED form is
outside the fixed set of known engines, `web_search` returns
`status="error"` and performs no driver navigation. -/
theorem claim_C7_amended (input : WebSearchInput) (env : SearchEnv)
    (h : pyStrip input.query = "" ∨ pyLower input.engine ∉ knownEngines) :
    (web_search input env).1.status = "error" ∧
    (web_search input env).2 = 0 := by
  rcases h with hq | he
  · rw [web_search]
    simp [hq]
  · simp only [knownEngines, List.mem_cons, List.not_mem_nil, or_false,
      not_or] at he
    obtain ⟨h1, h2, h3, h4, h5, h6⟩ := he
    rw [web_search]
    by_cases hq : pyStrip input.query = ""
    · simp [hq]
    · by_cases hm : env.managerAvailable = false
      · simp [hq, hm]
      · simp [hq, hm, h1, h2, h3, h4, h5, h6]

/-- Witness for the amended C7: a whitespace-only query short-circuits. -/
theorem claim_C7_amended_witness :
    (web_search ⟨"   ", "arxiv", 5⟩ c7Env).1.status = "error" ∧
    (web_search ⟨"   ", "arxiv", 5⟩ c7Env).2 = 0 :=
  claim_C7_amended ⟨"   ", "arxiv", 5⟩ c7Env (Or.inl (by decide))

/-- C9: an extraction failure on one individual result element skips only
that element: with the Google Scholar container elements split as
`pre ++ bad :: post` where `bad` fails extraction and everything fits the
requested count, the parse returns the extractions of `pre` and `post` —
the batch is returned, not aborted. -/
theorem claim_C9 (page : SoupPage) (n : Nat) (pre post : List ResultElem)
    (bad : ResultElem)
    (hc : findContainerElems googleScholarCfg.containerSelectors page
            = pre ++ bad :: post)
    (hbad : extractEngineResult googleScholarCfg bad = none)
    (hn : pre.length + 1 + post.length ≤ n) :
    parse_google_scholar_results page n
      = pre.filterMap (extractEngineResult googleScholarCfg)
        ++ post.filterMap (extractEngineResult googleScholarCfg) := by
  rw [parse_google_scholar_results, parseEngineResults, hc,
    List.take_of_length_le (by simp only [List.length_append, List.length_cons]; omega),
    List.filterMap_append, List.filterMap_cons, hbad]

/-- Witness for C9 on a concrete page: the failing middle element is
skipped and both surrounding results survive. -/
theorem claim_C9_witness :
    parse_google_scholar_results c9Page 5
      = [c9Elem1].filterMap (extractEngineResult googleScholarCfg)
        ++ [c9Elem3].filterMap (extractEngineResult googleScholarCfg) :=
  claim_C9 c9Page 5 [c9Elem1] [c9Elem3] c9ElemBad rfl (by decide) (by decide)

/-- C10: for every search input whose engine field satisfies the declared
schema (one of the six known identifiers), lowercasing is the identity on
the engine value and the dispatch selects an engine routine: with a
non-empty query and an available manager the call returns `status="ok"`,
never the `Unsupported search engine` error branch. -/
theorem claim_C10 (input : WebSearchInput) (env : SearchEnv)
    (he : input.engine ∈ knownEngines)
    (hq : pyStrip input.query ≠ "") (hm : env.managerAvailable = true) :
    pyLower input.engine = input.engine ∧
    (web_search input env).1.status = "ok" ∧
    (web_search input env).1.error
      ≠ some ("Unsupported search engine: " ++ pyLower input.engine) := by
  simp only [knownEngines, List.mem_cons, List.not_mem_nil, or_false] at he
  rcases hbe : env.behavior with msg | p <;>
    rcases he with h | h | h | h | h | h <;>
    rw [web_search] <;>
    simp [h, hq, hm, hbe, search_google_scholar, search_pubmed, search_ieee,
      search_arxiv, search_medrxiv, search_biorxiv, searchEngineRun, pyLower, charLower]

/-- Witness for C10 at the concrete engine `"medrxiv"`. -/
theorem claim_C10_witness :
    pyLower "medrxiv" = "medrxiv" ∧
    (web_search ⟨"preprint", "medrxiv", 5⟩ c10Env).1.status = "ok" ∧
    (web_search ⟨"preprint", "medrxiv", 5⟩ c10Env).1.error
      ≠ some ("Unsupported search engine: " ++ pyLower "medrxiv") :=
  claim_C10 ⟨"preprint", "medrxiv", 5⟩ c10Env (by decide) (by decide) rfl

end NavMCP

